import Mathlib

/-!
Shallow embedding of `src/bot.py`, a Twitch chat bot whose core is OAuth
token lifecycle management: validating an access token, refreshing it
before expiry, persisting the new pair to a `.env` file, and answering a
balance command backed by a Google-Sheets record store.

Modelling conventions:
* HTTP interactions are embedded by passing the provider's response as an
  explicit argument (`VResp` for the validate endpoint, `RefreshResp` for
  the token endpoint); the pure functions below compute exactly what the
  Python functions compute from that response.
* A Python function that may raise an uncaught exception is embedded as an
  `Option`-valued function; `none` means an exception propagates to the
  caller.
* The `.env` file is embedded as its byte content, a `List Char`;
  `readlines` and the line-rewriting loop of `update_env_file` are
  embedded character-for-character.
-/

/-- A response of the validate endpoint as seen by `validate_token`:
either an HTTP response with a status code and the optional JSON fields
`expires_in` and `scopes`, or a network failure (`requests.RequestException`). -/
inductive VResp where
  | http (status : Nat) (expiresIn : Option Int) (scopes : Option (List String))
  | netErr
deriving DecidableEq, Repr

/-- The value returned by Python's `validate_token`: either a pair
`(expires_in, scopes)` or — in the exception branch — a bare scalar `0`. -/
inductive ValidateRet where
  | tuple (expiresIn : Int) (scopes : List String)
  | scalar (n : Int)
deriving DecidableEq, Repr

/-- Embedding of `validate_token` (src/bot.py lines 44-59): on a 200
response it returns `(json.get "expires_in" 0, json.get "scopes" [])`; on
any other status it returns `(0, [])`; on a `RequestException` it returns
the bare scalar `0`. -/
def validate_token : VResp → ValidateRet
  | .http status expiresIn scopes =>
      if status = 200 then .tuple (expiresIn.getD 0) (scopes.getD [])
      else .tuple 0 []
  | .netErr => .scalar 0

/-- Python tuple unpacking `expires_in, scopes = validate_token(...)`:
succeeds on a pair, raises `TypeError` (embedded as `none`) on a bare
scalar. -/
def unpack2 : ValidateRet → Option (Int × List String)
  | .tuple e s => some (e, s)
  | .scalar _ => none

/-- A response of the token endpoint as seen by `refresh_access_token`:
a 200 response carrying the new pair, a non-200 status, or a network
failure. -/
inductive RefreshResp where
  | ok (access refresh : String)
  | httpErr (status : Nat)
  | netErr
deriving DecidableEq, Repr

/-- Embedding of `refresh_access_token` (src/bot.py lines 62-84): on 200
it returns the new `(access_token, refresh_token)` pair; on any other
status or on a `RequestException` it returns `(None, None)`. -/
def refresh_access_token : RefreshResp → Option String × Option String
  | .ok a r => (some a, some r)
  | .httpErr _ => (none, none)
  | .netErr => (none, none)

/-- Whether `refresh_access_token` logs an error for this response
(src/bot.py lines 79-84: both the non-200 branch and the exception branch
call `logging.error`). -/
def logsError : RefreshResp → Bool
  | .ok _ _ => false
  | .httpErr _ => true
  | .netErr => true

/-- The `.env` key of the access token line, as bytes. -/
def ACCESS_KEY : List Char := "TWITCH_ACCESS_TOKEN=".data

/-- The `.env` key of the refresh token line, as bytes. -/
def REFRESH_KEY : List Char := "TWITCH_REFRESH_TOKEN=".data

/-- The replacement line `f"TWITCH_ACCESS_TOKEN={access_token}\n"`. -/
def accessEntry (a : List Char) : List Char := ACCESS_KEY ++ a ++ ['\n']

/-- The replacement line `f"TWITCH_REFRESH_TOKEN={refresh_token_value}\n"`. -/
def refreshEntry (r : List Char) : List Char := REFRESH_KEY ++ r ++ ['\n']

/-- Python `str.startswith`, on byte lists. -/
def startsWithChars : List Char → List Char → Bool
  | [], _ => true
  | _ :: _, [] => false
  | k :: ks, c :: cs => k == c && startsWithChars ks cs

/-- Helper of `readlines`: accumulates the current (reversed) partial line. -/
def readlinesAux : List Char → List Char → List (List Char)
  | [], acc => if acc.isEmpty then [] else [acc.reverse]
  | c :: cs, acc =>
      if c = '\n' then (c :: acc).reverse :: readlinesAux cs []
      else readlinesAux cs (c :: acc)

/-- Python's `f.readlines()`: splits file content into lines, each line
keeping its trailing `'\n'`; a final unterminated line is kept without one. -/
def readlines (content : List Char) : List (List Char) := readlinesAux content []

/-- The `for line in lines` loop of `update_env_file` (src/bot.py lines
97-105): rewrites every line starting with one of the two token keys and
reports which of the two flags (`access_updated`, `refresh_updated`) were
set. -/
def updateEnvLines (a r : List Char) : List (List Char) → List (List Char) × Bool × Bool
  | [] => ([], false, false)
  | line :: rest =>
      let res := updateEnvLines a r rest
      if startsWithChars ACCESS_KEY line then (accessEntry a :: res.1, true, res.2.2)
      else if startsWithChars REFRESH_KEY line then (refreshEntry r :: res.1, res.2.1, true)
      else (line :: res.1, res.2.1, res.2.2)

/-- Embedding of `update_env_file` (src/bot.py lines 87-114) as the pure
transformation of the `.env` file content it performs on a successful
read/write: `readlines`, rewrite token lines, append whichever entry was
absent (access first, then refresh), `writelines` (= concatenation). -/
def update_env_file (a r content : List Char) : List Char :=
  let res := updateEnvLines a r (readlines content)
  let withAccess := if res.2.1 then res.1 else res.1 ++ [accessEntry a]
  let withBoth := if res.2.2 then withAccess else withAccess ++ [refreshEntry r]
  withBoth.flatten

/-- Whether a line would be rewritten by `update_env_file`: it starts
with one of the two token keys. -/
def isTokenLine (l : List Char) : Bool :=
  startsWithChars ACCESS_KEY l || startsWithChars REFRESH_KEY l

/-- The full line list `update_env_file` writes: the rewritten lines plus
the appended entries for whichever keys were absent. -/
def finalLines (a r : List Char) (L : List (List Char)) : List (List Char) :=
  let res := updateEnvLines a r L
  let withAccess := if res.2.1 then res.1 else res.1 ++ [accessEntry a]
  if res.2.2 then withAccess else withAccess ++ [refreshEntry r]

/-- The bot's mutable state: `self.access_token`, `self.refresh_token_value`,
the live connection's token (`self._connection._token`), and the `.env`
file content (the persisted store). -/
structure BotSt where
  access_token : String
  refresh_token_value : String
  conn_token : String
  env : List Char
deriving DecidableEq, Repr

/-- The shared validate-then-maybe-refresh block that is inlined verbatim
both in `Bot.token_refresh_loop` (src/bot.py lines 144-151) and in
`Bot.check_balance` (lines 178-185): validate, and if `expires_in < 300`
call the refresh endpoint once; on a truthy new pair update
`self.access_token`, `self.refresh_token_value`, `self._connection._token`
and the `.env` file together. Returns `none` when the tuple unpacking of
`validate_token`'s result raises; otherwise the new state, the validity
signal (false exactly when a needed refresh failed), and the number of
refresh calls issued. -/
def ensure_valid (vr : VResp) (rr : RefreshResp) (st : BotSt) :
    Option (BotSt × Bool × Nat) :=
  match unpack2 (validate_token vr) with
  | none => none
  | some (expires_in, _scopes) =>
      if expires_in < 300 then
        match refresh_access_token rr with
        | (some a, some r) =>
            if a = "" ∨ r = "" then some (st, false, 1)
            else some ({ access_token := a, refresh_token_value := r, conn_token := a,
                         env := update_env_file a.data r.data st.env }, true, 1)
        | _ => some (st, false, 1)
      else some (st, true, 0)

/-- One iteration of `Bot.token_refresh_loop` (src/bot.py lines 143-151),
before the `asyncio.sleep(300)`: the loop runs the shared block and
ignores the validity signal. -/
def token_refresh_iter (vr : VResp) (rr : RefreshResp) (st : BotSt) :
    Option (BotSt × Nat) :=
  match ensure_valid vr rr st with
  | none => none
  | some (st', _ok, calls) => some (st', calls)

/-- A row of the Google Sheet as returned by `get_all_records`: the
`Username` and `Tokens` fields may each be absent. -/
structure Record where
  username : Option String
  tokens : Option Int
deriving DecidableEq, Repr

/-- The state of the module-level `sheet` object: `None` (initialization
failed), a readable sheet with its records, or a sheet whose
`get_all_records` raises. -/
inductive Sheet where
  | uninitialized
  | ok (records : List Record)
  | apiError
deriving DecidableEq, Repr

/-- Model of Python `str.lower()`: lowercase each character (ASCII
lowercasing; chat usernames are ASCII). Written as a plain map over the
character list so it reduces computationally. -/
def pyLower (s : String) : String := String.mk (s.data.map Char.toLower)

/-- The `for record in records` loop of `get_user_points` (src/bot.py
lines 161-164): returns `record.get("Tokens", 0)` of the first record
whose `record.get("Username", "").lower()` equals `username.lower()`,
and `0` when none matches. -/
def findPoints (username : String) : List Record → Int
  | [] => 0
  | rec :: rest =>
      if pyLower (rec.username.getD "") = pyLower username then rec.tokens.getD 0
      else findPoints username rest

/-- Embedding of `Bot.get_user_points` (src/bot.py lines 154-170): `None`
(embedded `none`) when the sheet is uninitialized or the read raises,
otherwise the result of the search loop. -/
def get_user_points (sh : Sheet) (username : String) : Option Int :=
  match sh with
  | .uninitialized => none
  | .apiError => none
  | .ok records => some (findPoints username records)

/-- The reply `f"@{ctx.author.name}, you have {points} tokens."`. -/
def balanceMsg (name : String) (points : Int) : String :=
  "@" ++ name ++ ", you have " ++ toString points ++ " tokens."

/-- The reply `f"Error retrieving tokens for @{ctx.author.name}."`. -/
def errorMsg (name : String) : String :=
  "Error retrieving tokens for @" ++ name ++ "."

/-- The reply `"Bot token expired."`. -/
def expiredMsg : String := "Bot token expired."

/-- The lookup-and-reply tail of `Bot.check_balance` (src/bot.py lines
189-193): `if points:` — Python truthiness, so `None` and `0` both fall
to the error reply. -/
def lookupReply (sh : Sheet) (name : String) : String :=
  match get_user_points sh name with
  | some p => if p = 0 then errorMsg name else balanceMsg name p
  | none => errorMsg name

/-- Embedding of `Bot.check_balance` (src/bot.py lines 176-193): run the
shared validate/refresh block; on a failed needed refresh send
`"Bot token expired."` and return, otherwise look the author up and
reply. `none` models the unpacking `TypeError` escaping the handler. -/
def check_balance (vr : VResp) (rr : RefreshResp) (sh : Sheet) (author : String)
    (st : BotSt) : Option (BotSt × String × Nat) :=
  match ensure_valid vr rr st with
  | none => none
  | some (st', ok, calls) =>
      if ok then some (st', lookupReply sh author, calls)
      else some (st', expiredMsg, calls)

/-- The scope list hard-coded in the startup check (src/bot.py line 201). -/
def REQUIRED_SCOPES : List String := ["chat:read", "chat:edit"]

/-- The outcome of the `__main__` block: an uncaught exception, a call of
`exit(code)`, or the construction of `Bot(access_token)` with the state
the bot then holds. -/
inductive StartupResult where
  | crashed
  | exited (code : Nat)
  | started (st : BotSt)
deriving DecidableEq, Repr

/-- Embedding of the `__main__` block (src/bot.py lines 196-210) together
with `Bot.__init__` (lines 118-127), returning the outcome and the number
of refresh calls issued. `envAccess`/`envRefresh` are the module-level
`TWITCH_ACCESS_TOKEN`/`TWITCH_REFRESH_TOKEN` loaded from the environment,
`env` the `.env` file content. Note `Bot.__init__` sets
`self.refresh_token_value = TWITCH_REFRESH_TOKEN`, the module-level value,
even when the startup refresh just rotated the pair. -/
def main_startup (vr : VResp) (rr : RefreshResp) (envAccess envRefresh : String)
    (env : List Char) : StartupResult × Nat :=
  match unpack2 (validate_token vr) with
  | none => (.crashed, 0)
  | some (expires_in, scopes) =>
      if expires_in < 300 ∨ ¬ (REQUIRED_SCOPES.all fun s => scopes.contains s) then
        match refresh_access_token rr with
        | (some a, some r) =>
            if a = "" ∨ r = "" then (.exited 1, 1)
            else (.started { access_token := a, refresh_token_value := envRefresh,
                             conn_token := a,
                             env := update_env_file a.data r.data env }, 1)
        | _ => (.exited 1, 1)
      else (.started { access_token := envAccess, refresh_token_value := envRefresh,
                       conn_token := envAccess, env := env }, 0)

/-! ### Helper lemmas -/

/-- The search loop of `get_user_points` agrees with `List.find?` on the
same case-insensitive username predicate. -/
theorem findPoints_eq_find (u : String) (records : List Record) :
    findPoints u records =
      (match records.find? (fun rec => pyLower (rec.username.getD "") == pyLower u) with
       | some rec => rec.tokens.getD 0
       | none => 0) := by
  induction records with
  | nil => rfl
  | cons rec rest ih =>
      by_cases hm : pyLower (rec.username.getD "") = pyLower u
      · have hb : (pyLower (rec.username.getD "") == pyLower u) = true := beq_iff_eq.mpr hm
        simp [findPoints, List.find?, hm, hb]
      · have hb : (pyLower (rec.username.getD "") == pyLower u) = false :=
          beq_eq_false_iff_ne.mpr hm
        simp [findPoints, List.find?, hm, hb, ih]

/-- The search loop of `get_user_points` returns 0 when no record's
username matches the query. -/
theorem findPoints_eq_zero (u : String) (records : List Record)
    (hnone : ∀ rec ∈ records, pyLower (rec.username.getD "") ≠ pyLower u) :
    findPoints u records = 0 := by
  induction records with
  | nil => rfl
  | cons rec rest ih =>
      have h1 : pyLower (rec.username.getD "") ≠ pyLower u := hnone rec (by simp)
      have h2 : ∀ r ∈ rest, pyLower (r.username.getD "") ≠ pyLower u := by
        intro r hr
        exact hnone r (by simp [hr])
      simp [findPoints, h1, ih h2]

/-! ### Claim theorems -/

/-- C2 counterexample: a validation response with `remaining_seconds = 300`
and an empty scope set (so the required scope `chat:read` is missing)
on which the shared ensure-valid block of `token_refresh_loop` /
`check_balance` issues zero refresh calls, contradicting the claim that a
scope deficiency alone triggers a refresh in every ensure-valid
invocation. -/
theorem c2_scope_deficiency_no_refresh :
    ("chat:read" ∈ REQUIRED_SCOPES ∧ "chat:read" ∉ ([] : List String)) ∧
    ensure_valid (VResp.http 200 (some 300) (some [])) RefreshResp.netErr ⟨"a", "r", "a", []⟩ =
      some (⟨"a", "r", "a", []⟩, true, 0) := by decide

/-- C2 (amended): given a successfully unpacked validation response
`(e, sc)`, the shared block of `token_refresh_loop` and `check_balance`
issues exactly one refresh call when `e < 300` and none otherwise,
regardless of the granted scopes; only the startup check also counts a
missing required scope as a reason to refresh. -/
theorem c2_refresh_iff_under_300 (vr : VResp) (rr : RefreshResp) (st : BotSt)
    (e : Int) (sc : List String)
    (h : unpack2 (validate_token vr) = some (e, sc)) :
    Option.map (fun x => x.2.2) (ensure_valid vr rr st) = some (if e < 300 then 1 else 0) ∧
    (∀ ea er env, (main_startup vr rr ea er env).2 =
      if e < 300 ∨ ¬ (REQUIRED_SCOPES.all fun s => sc.contains s) then 1 else 0) := by
  constructor
  · simp only [ensure_valid, h]
    by_cases he : e < 300
    · simp only [if_pos he]
      rcases hm : refresh_access_token rr with ⟨na, nr⟩
      cases na <;> cases nr <;> simp [he] <;> split <;> simp
    · simp [he]
  · intro ea er env
    simp only [main_startup, h]
    by_cases hc : e < 300 ∨ ¬ (REQUIRED_SCOPES.all fun s => sc.contains s)
    · rw [if_pos hc, if_pos hc]
      rcases hm : refresh_access_token rr with ⟨na, nr⟩
      cases na <;> cases nr <;> simp <;> split <;> simp
    · rw [if_neg hc, if_neg hc]

/-- C2 witness: the amended theorem applied at a concrete expired
validation response, a failing refresh, and a concrete state. -/
theorem c2_refresh_iff_under_300_witness :
    unpack2 (validate_token (VResp.http 200 (some 0) (some []))) = some (0, []) ∧
    Option.map (fun x => x.2.2)
        (ensure_valid (VResp.http 200 (some 0) (some [])) (RefreshResp.httpErr 400)
          ⟨"a", "r", "a", []⟩) =
      some (if (0 : Int) < 300 then 1 else 0) ∧
    (main_startup (VResp.http 200 (some 0) (some [])) (RefreshResp.httpErr 400) "A1" "R1" []).2 =
      (if (0 : Int) < 300 ∨ ¬ (REQUIRED_SCOPES.all fun s => ([] : List String).contains s)
       then 1 else 0) :=
  ⟨by decide,
   (c2_refresh_iff_under_300 (VResp.http 200 (some 0) (some [])) (RefreshResp.httpErr 400)
      ⟨"a", "r", "a", []⟩ 0 [] (by decide)).1,
   (c2_refresh_iff_under_300 (VResp.http 200 (some 0) (some [])) (RefreshResp.httpErr 400)
      ⟨"a", "r", "a", []⟩ 0 [] (by decide)).2 "A1" "R1" []⟩

/-- C3: on a network failure `validate_token` returns the bare scalar
`0` — not the `(0, [])` pair the claim calls `Invalid` — so the callers'
tuple unpacking `expires_in, scopes = validate_token(...)` raises a
`TypeError` that escapes the ensure-valid block (embedded as `none`),
while a non-2xx response does return the pair `(0, [])`. -/
theorem c3_neterr_returns_bare_scalar :
    validate_token VResp.netErr = ValidateRet.scalar 0 ∧
    unpack2 (validate_token VResp.netErr) = none ∧
    ensure_valid VResp.netErr RefreshResp.netErr ⟨"a", "r", "a", []⟩ = none ∧
    token_refresh_iter VResp.netErr RefreshResp.netErr ⟨"a", "r", "a", []⟩ = none ∧
    validate_token (VResp.http 401 none none) = ValidateRet.tuple 0 [] := by decide

/-- C4: at a startup where validation reports the token expired and the
refresh endpoint returns the rotated pair `("A2", "R2")`, the process
writes `("A2", "R2")` to the `.env` file but constructs the bot with
`refresh_token_value` equal to the pre-rotation module-level value
`"R1"` — a new access token paired with a pre-rotation refresh token. -/
theorem c4_startup_stale_refresh_pair :
    (main_startup (VResp.http 200 (some 0) (some [])) (RefreshResp.ok "A2" "R2") "A1" "R1" []).1 =
      StartupResult.started { access_token := "A2", refresh_token_value := "R1",
                              conn_token := "A2",
                              env := ("TWITCH_ACCESS_TOKEN=A2\nTWITCH_REFRESH_TOKEN=R2\n").data } ∧
    ("R1" : String) ≠ "R2" := by decide

/-- C5 counterexample: with a valid token, the balance command sends the
very same error reply for a username absent from the records (where
`get_user_points` returns `some 0`) as for a store failure (where it
returns `none`): the two outcomes are not distinguishable in the
user-visible reply. -/
theorem c5_zero_reply_equals_error_reply :
    get_user_points (Sheet.ok []) "alice" = some 0 ∧
    get_user_points Sheet.apiError "alice" = none ∧
    check_balance (VResp.http 200 (some 1000) (some ["chat:read", "chat:edit"]))
        RefreshResp.netErr (Sheet.ok []) "alice" ⟨"a", "r", "a", []⟩ =
      some (⟨"a", "r", "a", []⟩, errorMsg "alice", 0) ∧
    check_balance (VResp.http 200 (some 1000) (some ["chat:read", "chat:edit"]))
        RefreshResp.netErr Sheet.apiError "alice" ⟨"a", "r", "a", []⟩ =
      some (⟨"a", "r", "a", []⟩, errorMsg "alice", 0) := by decide

/-- C5 (amended): a lookup of a username matching no record returns `0`
and a store failure returns the error signal `None`, so the two are
distinguishable at the `get_user_points` level; but the balance command's
truthiness check sends the same error reply for both, so the user-visible
reply does not distinguish them. -/
theorem c5_zero_distinguishable_at_lookup_only (records : List Record) (u : String)
    (hnone : ∀ rec ∈ records, pyLower (rec.username.getD "") ≠ pyLower u) :
    get_user_points (Sheet.ok records) u = some 0 ∧
    get_user_points Sheet.uninitialized u = none ∧
    get_user_points Sheet.apiError u = none ∧
    lookupReply (Sheet.ok records) u = errorMsg u ∧
    lookupReply Sheet.apiError u = errorMsg u := by
  have h0 : findPoints u records = 0 := findPoints_eq_zero u records hnone
  refine ⟨?_, rfl, rfl, ?_, rfl⟩
  · simp [get_user_points, h0]
  · simp [lookupReply, get_user_points, h0, errorMsg]

/-- C5 witness: the amended theorem applied to a one-record store that
does not contain the queried username. -/
theorem c5_zero_distinguishable_at_lookup_only_witness :
    (∀ rec ∈ [(⟨some "bob", some 5⟩ : Record)], pyLower (rec.username.getD "") ≠ pyLower "alice") ∧
    (get_user_points (Sheet.ok [⟨some "bob", some 5⟩]) "alice" = some 0 ∧
     get_user_points Sheet.uninitialized "alice" = none ∧
     get_user_points Sheet.apiError "alice" = none ∧
     lookupReply (Sheet.ok [⟨some "bob", some 5⟩]) "alice" = errorMsg "alice" ∧
     lookupReply Sheet.apiError "alice" = errorMsg "alice") :=
  ⟨by decide, c5_zero_distinguishable_at_lookup_only [⟨some "bob", some 5⟩] "alice" (by decide)⟩

/-- C6: when the validated token needs a refresh and the refresh call
fails (non-200 or network error, i.e. `refresh_access_token` returns
`(None, None)`), the ensure-valid block leaves the whole state — in-memory
pair, connection token and `.env` content — byte-identical, the failure is
logged, the validity signal is false, and the balance command replies
"Bot token expired." instead of answering. -/
theorem c6_failed_refresh_leaves_state (vr : VResp) (rr : RefreshResp) (st : BotSt)
    (e : Int) (sc : List String)
    (h : unpack2 (validate_token vr) = some (e, sc)) (he : e < 300)
    (hf : refresh_access_token rr = (none, none)) :
    ensure_valid vr rr st = some (st, false, 1) ∧
    token_refresh_iter vr rr st = some (st, 1) ∧
    logsError rr = true ∧
    (∀ sh author, check_balance vr rr sh author st = some (st, expiredMsg, 1)) := by
  have h1 : ensure_valid vr rr st = some (st, false, 1) := by
    simp only [ensure_valid, h]
    rw [if_pos he, hf]
  have hlog : logsError rr = true := by
    cases rr with
    | ok a r => simp [refresh_access_token] at hf
    | httpErr s => rfl
    | netErr => rfl
  refine ⟨h1, by simp [token_refresh_iter, h1], hlog, ?_⟩
  intro sh author
  simp [check_balance, h1]

/-- C6 witness: the theorem applied at an expired validation response, a
400 refresh response, and a concrete state. -/
theorem c6_failed_refresh_leaves_state_witness :
    unpack2 (validate_token (VResp.http 200 (some 0) (some []))) = some (0, []) ∧
    (0 : Int) < 300 ∧
    refresh_access_token (RefreshResp.httpErr 400) = (none, none) ∧
    ensure_valid (VResp.http 200 (some 0) (some [])) (RefreshResp.httpErr 400)
        ⟨"a", "r", "a", []⟩ = some (⟨"a", "r", "a", []⟩, false, 1) ∧
    token_refresh_iter (VResp.http 200 (some 0) (some [])) (RefreshResp.httpErr 400)
        ⟨"a", "r", "a", []⟩ = some (⟨"a", "r", "a", []⟩, 1) ∧
    logsError (RefreshResp.httpErr 400) = true ∧
    check_balance (VResp.http 200 (some 0) (some [])) (RefreshResp.httpErr 400)
        (Sheet.ok []) "alice" ⟨"a", "r", "a", []⟩ =
      some (⟨"a", "r", "a", []⟩, expiredMsg, 1) :=
  ⟨by decide, by decide, by decide,
   (c6_failed_refresh_leaves_state (VResp.http 200 (some 0) (some [])) (RefreshResp.httpErr 400)
      ⟨"a", "r", "a", []⟩ 0 [] (by decide) (by decide) (by decide)).1,
   (c6_failed_refresh_leaves_state (VResp.http 200 (some 0) (some [])) (RefreshResp.httpErr 400)
      ⟨"a", "r", "a", []⟩ 0 [] (by decide) (by decide) (by decide)).2.1,
   (c6_failed_refresh_leaves_state (VResp.http 200 (some 0) (some [])) (RefreshResp.httpErr 400)
      ⟨"a", "r", "a", []⟩ 0 [] (by decide) (by decide) (by decide)).2.2.1,
   (c6_failed_refresh_leaves_state (VResp.http 200 (some 0) (some [])) (RefreshResp.httpErr 400)
      ⟨"a", "r", "a", []⟩ 0 [] (by decide) (by decide) (by decide)).2.2.2 (Sheet.ok []) "alice"⟩

/-- C7: when the validation response reports `expires_in >= 300` and the
granted scopes include every required scope, the ensure-valid block makes
no refresh call, leaves the state unchanged, signals validity, and the
balance command proceeds directly to the lookup reply. -/
theorem c7_valid_token_no_refresh (vr : VResp) (rr : RefreshResp) (st : BotSt)
    (e : Int) (sc : List String)
    (h : unpack2 (validate_token vr) = some (e, sc)) (he : 300 ≤ e)
    (hs : ∀ s ∈ REQUIRED_SCOPES, s ∈ sc) :
    ensure_valid vr rr st = some (st, true, 0) ∧
    token_refresh_iter vr rr st = some (st, 0) ∧
    (∀ sh author, check_balance vr rr sh author st = some (st, lookupReply sh author, 0)) := by
  have hnl : ¬ (e < 300) := by omega
  have h1 : ensure_valid vr rr st = some (st, true, 0) := by
    simp only [ensure_valid, h]
    rw [if_neg hnl]
  refine ⟨h1, by simp [token_refresh_iter, h1], ?_⟩
  intro sh author
  simp [check_balance, h1]

/-- C7 witness: the theorem applied at a fresh validation response that
grants both required scopes. -/
theorem c7_valid_token_no_refresh_witness :
    unpack2 (validate_token (VResp.http 200 (some 1000) (some ["chat:read", "chat:edit"]))) =
      some (1000, ["chat:read", "chat:edit"]) ∧
    (300 : Int) ≤ 1000 ∧
    (∀ s ∈ REQUIRED_SCOPES, s ∈ ["chat:read", "chat:edit"]) ∧
    ensure_valid (VResp.http 200 (some 1000) (some ["chat:read", "chat:edit"])) RefreshResp.netErr
        ⟨"a", "r", "a", []⟩ = some (⟨"a", "r", "a", []⟩, true, 0) ∧
    token_refresh_iter (VResp.http 200 (some 1000) (some ["chat:read", "chat:edit"]))
        RefreshResp.netErr ⟨"a", "r", "a", []⟩ = some (⟨"a", "r", "a", []⟩, 0) ∧
    check_balance (VResp.http 200 (some 1000) (some ["chat:read", "chat:edit"]))
        RefreshResp.netErr (Sheet.ok []) "alice" ⟨"a", "r", "a", []⟩ =
      some (⟨"a", "r", "a", []⟩, lookupReply (Sheet.ok []) "alice", 0) :=
  ⟨by decide, by decide, by decide,
   (c7_valid_token_no_refresh (VResp.http 200 (some 1000) (some ["chat:read", "chat:edit"]))
      RefreshResp.netErr ⟨"a", "r", "a", []⟩ 1000 ["chat:read", "chat:edit"]
      (by decide) (by decide) (by decide)).1,
   (c7_valid_token_no_refresh (VResp.http 200 (some 1000) (some ["chat:read", "chat:edit"]))
      RefreshResp.netErr ⟨"a", "r", "a", []⟩ 1000 ["chat:read", "chat:edit"]
      (by decide) (by decide) (by decide)).2.1,
   (c7_valid_token_no_refresh (VResp.http 200 (some 1000) (some ["chat:read", "chat:edit"]))
      RefreshResp.netErr ⟨"a", "r", "a", []⟩ 1000 ["chat:read", "chat:edit"]
      (by decide) (by decide) (by decide)).2.2 (Sheet.ok []) "alice"⟩

/-- C8: when the startup validation reports a near-expired token or a
missing required scope and the refresh call fails, the `__main__` block
calls `exit(1)` — a non-zero status — and never constructs the bot. -/
theorem c8_startup_refresh_failure_exits (vr : VResp) (rr : RefreshResp)
    (ea er : String) (env : List Char) (e : Int) (sc : List String)
    (h : unpack2 (validate_token vr) = some (e, sc))
    (hneed : e < 300 ∨ ¬ (REQUIRED_SCOPES.all fun s => sc.contains s))
    (hf : refresh_access_token rr = (none, none)) :
    main_startup vr rr ea er env = (StartupResult.exited 1, 1) ∧
    (∀ st, (main_startup vr rr ea er env).1 ≠ StartupResult.started st) := by
  have h1 : main_startup vr rr ea er env = (StartupResult.exited 1, 1) := by
    simp only [main_startup, h]
    rw [if_pos hneed, hf]
  exact ⟨h1, fun st => by simp [h1]⟩

/-- C8 witness: the theorem applied at a validation response whose token
is fresh but misses both required scopes, with a network-failed refresh. -/
theorem c8_startup_refresh_failure_exits_witness :
    unpack2 (validate_token (VResp.http 200 (some 1000) (some []))) = some (1000, []) ∧
    ((1000 : Int) < 300 ∨ ¬ (REQUIRED_SCOPES.all fun s => ([] : List String).contains s)) ∧
    refresh_access_token RefreshResp.netErr = (none, none) ∧
    main_startup (VResp.http 200 (some 1000) (some [])) RefreshResp.netErr "A1" "R1" [] =
      (StartupResult.exited 1, 1) ∧
    (main_startup (VResp.http 200 (some 1000) (some [])) RefreshResp.netErr "A1" "R1" []).1 ≠
      StartupResult.started ⟨"A1", "R1", "A1", []⟩ :=
  ⟨by decide, by decide, by decide,
   (c8_startup_refresh_failure_exits (VResp.http 200 (some 1000) (some [])) RefreshResp.netErr
      "A1" "R1" [] 1000 [] (by decide) (by decide) (by decide)).1,
   (c8_startup_refresh_failure_exits (VResp.http 200 (some 1000) (some [])) RefreshResp.netErr
      "A1" "R1" [] 1000 [] (by decide) (by decide) (by decide)).2 ⟨"A1", "R1", "A1", []⟩⟩

/-- C9: `get_user_points` returns the error signal `None` when the sheet
client failed to initialize or the read raises; otherwise it returns the
`Tokens` field (default 0) of the first record whose `Username` field
(default "") equals the query case-insensitively, and 0 when no record
matches. -/
theorem c9_get_user_points_semantics (records : List Record) (u : String) :
    get_user_points Sheet.uninitialized u = none ∧
    get_user_points Sheet.apiError u = none ∧
    get_user_points (Sheet.ok records) u =
      some (match records.find? (fun rec => pyLower (rec.username.getD "") == pyLower u) with
            | some rec => rec.tokens.getD 0
            | none => 0) :=
  ⟨rfl, rfl, by simp [get_user_points, findPoints_eq_find]⟩

/-! ### Helper lemmas for the `.env` rewrite -/

/-- Unfolding `update_env_file` through `finalLines`. -/
theorem update_env_file_eq_finalLines (a r content : List Char) :
    update_env_file a r content = (finalLines a r (readlines content)).flatten := rfl

/-- A line that starts with the access key extended by anything still
starts with the access key. -/
theorem sw_access_self (x : List Char) :
    startsWithChars ACCESS_KEY (ACCESS_KEY ++ x) = true := rfl

/-- A line that starts with the refresh key extended by anything still
starts with the refresh key. -/
theorem sw_refresh_self (x : List Char) :
    startsWithChars REFRESH_KEY (REFRESH_KEY ++ x) = true := rfl

/-- A refresh entry never passes the access-key check (the keys differ at
their eighth character). -/
theorem sw_access_refresh (x : List Char) :
    startsWithChars ACCESS_KEY (REFRESH_KEY ++ x) = false := rfl

/-- An access entry never passes the refresh-key check. -/
theorem sw_refresh_access (x : List Char) :
    startsWithChars REFRESH_KEY (ACCESS_KEY ++ x) = false := rfl

/-- Splitting a stream at its first newline: `readlinesAux` emits the
pending accumulator plus the newline-free chunk as one line. -/
theorem readlinesAux_split (m : List Char) (rest acc : List Char) (hm : '\n' ∉ m) :
    readlinesAux (m ++ '\n' :: rest) acc = (acc.reverse ++ (m ++ ['\n'])) :: readlinesAux rest [] := by
  induction m generalizing acc with
  | nil => simp [readlinesAux]
  | cons c m ih =>
      have hc : ¬ (c = '\n') := fun h => hm (by simp [h])
      have hm' : '\n' ∉ m := fun h => hm (by simp [h])
      have step : readlinesAux ((c :: m) ++ '\n' :: rest) acc =
          readlinesAux (m ++ '\n' :: rest) (c :: acc) := by
        simp [readlinesAux, hc]
      rw [step, ih (c :: acc) hm']
      simp

/-- Concatenating newline-terminated lines and re-splitting them gives
the lines back: `readlines` is a left inverse of `writelines` on
well-formed line lists. -/
theorem readlines_flatten (L : List (List Char))
    (h : ∀ l ∈ L, ∃ m, '\n' ∉ m ∧ l = m ++ ['\n']) :
    readlines L.flatten = L := by
  induction L with
  | nil => rfl
  | cons l L ih =>
      obtain ⟨m, hm, rfl⟩ := h l (by simp)
      have hL : ∀ l ∈ L, ∃ m, '\n' ∉ m ∧ l = m ++ ['\n'] := fun l hl => h l (by simp [hl])
      have hflat : (((m ++ ['\n']) :: L).flatten : List Char) = m ++ '\n' :: L.flatten := by simp
      have hrest : readlinesAux L.flatten [] = L := ih hL
      show readlinesAux (((m ++ ['\n']) :: L).flatten) [] = (m ++ ['\n']) :: L
      rw [hflat, readlinesAux_split m L.flatten [] hm, hrest]
      simp

/-- An access entry is a token line. -/
theorem tokenLine_accessEntry (a : List Char) : isTokenLine (accessEntry a) = true := by
  simp [isTokenLine, accessEntry, sw_access_self]

/-- A refresh entry is a token line. -/
theorem tokenLine_refreshEntry (r : List Char) : isTokenLine (refreshEntry r) = true := by
  simp [isTokenLine, refreshEntry, sw_refresh_self]

/-- Every line output by the rewrite loop is one of the two new entries
or an untouched non-token input line. -/
theorem mem_updateEnvLines (a r : List Char) (L : List (List Char)) :
    ∀ l ∈ (updateEnvLines a r L).1,
      l = accessEntry a ∨ l = refreshEntry r ∨ (l ∈ L ∧ isTokenLine l = false) := by
  induction L with
  | nil => intro l hl; simp [updateEnvLines] at hl
  | cons line rest ih =>
      intro l hl
      by_cases h1 : startsWithChars ACCESS_KEY line = true
      · simp only [updateEnvLines, h1, if_true] at hl
        rcases List.mem_cons.mp hl with rfl | hl
        · exact Or.inl rfl
        · rcases ih l hl with h | h | ⟨hmem, htok⟩
          · exact Or.inl h
          · exact Or.inr (Or.inl h)
          · exact Or.inr (Or.inr ⟨List.mem_cons_of_mem line hmem, htok⟩)
      · by_cases h2 : startsWithChars REFRESH_KEY line = true
        · simp only [updateEnvLines, h1, h2, if_true, if_false, Bool.false_eq_true] at hl
          rcases List.mem_cons.mp hl with rfl | hl
          · exact Or.inr (Or.inl rfl)
          · rcases ih l hl with h | h | ⟨hmem, htok⟩
            · exact Or.inl h
            · exact Or.inr (Or.inl h)
            · exact Or.inr (Or.inr ⟨List.mem_cons_of_mem line hmem, htok⟩)
        · simp only [updateEnvLines, h1, h2, if_false, Bool.false_eq_true] at hl
          rcases List.mem_cons.mp hl with rfl | hl
          · refine Or.inr (Or.inr ⟨List.mem_cons_self _ _, ?_⟩)
            have e1 := Bool.eq_false_iff.mpr h1
            have e2 := Bool.eq_false_iff.mpr h2
            simp [isTokenLine, e1, e2]
          · rcases ih l hl with h | h | ⟨hmem, htok⟩
            · exact Or.inl h
            · exact Or.inr (Or.inl h)
            · exact Or.inr (Or.inr ⟨List.mem_cons_of_mem line hmem, htok⟩)

/-- When the loop saw an access-key line, the new access entry is among
its output lines. -/
theorem accessEntry_mem_of_flag (a r : List Char) (L : List (List Char))
    (h : (updateEnvLines a r L).2.1 = true) : accessEntry a ∈ (updateEnvLines a r L).1 := by
  induction L with
  | nil => simp [updateEnvLines] at h
  | cons line rest ih =>
      by_cases h1 : startsWithChars ACCESS_KEY line = true
      · simp [updateEnvLines, h1]
      · by_cases h2 : startsWithChars REFRESH_KEY line = true
        · simp only [updateEnvLines, h1, h2, if_true, if_false, Bool.false_eq_true] at h ⊢
          exact List.mem_cons_of_mem _ (ih h)
        · simp only [updateEnvLines, h1, h2, if_false, Bool.false_eq_true] at h ⊢
          exact List.mem_cons_of_mem _ (ih h)

/-- When the loop saw a refresh-key line, the new refresh entry is among
its output lines. -/
theorem refreshEntry_mem_of_flag (a r : List Char) (L : List (List Char))
    (h : (updateEnvLines a r L).2.2 = true) : refreshEntry r ∈ (updateEnvLines a r L).1 := by
  induction L with
  | nil => simp [updateEnvLines] at h
  | cons line rest ih =>
      by_cases h1 : startsWithChars ACCESS_KEY line = true
      · simp only [updateEnvLines, h1, if_true] at h ⊢
        exact List.mem_cons_of_mem _ (ih h)
      · by_cases h2 : startsWithChars REFRESH_KEY line = true
        · simp [updateEnvLines, h1, h2]
        · simp only [updateEnvLines, h1, h2, if_false, Bool.false_eq_true] at h ⊢
          exact List.mem_cons_of_mem _ (ih h)

/-- The rewrite loop preserves the non-token lines, in order and
byte-identical. -/
theorem filter_updateEnvLines (a r : List Char) (L : List (List Char)) :
    ((updateEnvLines a r L).1).filter (fun l => !isTokenLine l) =
      L.filter (fun l => !isTokenLine l) := by
  induction L with
  | nil => rfl
  | cons line rest ih =>
      by_cases h1 : startsWithChars ACCESS_KEY line = true
      · have ht : isTokenLine line = true := by simp [isTokenLine, h1]
        simp [updateEnvLines, h1, List.filter_cons, ht, tokenLine_accessEntry, ih]
      · by_cases h2 : startsWithChars REFRESH_KEY line = true
        · have ht : isTokenLine line = true := by simp [isTokenLine, h2]
          simp [updateEnvLines, h1, h2, List.filter_cons, ht, tokenLine_refreshEntry, ih]
        · have ht : isTokenLine line = false := by simp [isTokenLine, h1, h2]
          simp [updateEnvLines, h1, h2, List.filter_cons, ht, ih]

/-- The new access entry always appears among the written lines: either a
line was rewritten to it, or it was appended. -/
theorem accessEntry_mem_finalLines (a r : List Char) (L : List (List Char)) :
    accessEntry a ∈ finalLines a r L := by
  have hbase : accessEntry a ∈
      (if (updateEnvLines a r L).2.1 then (updateEnvLines a r L).1
       else (updateEnvLines a r L).1 ++ [accessEntry a]) := by
    by_cases f1 : (updateEnvLines a r L).2.1 = true
    · rw [if_pos f1]; exact accessEntry_mem_of_flag a r L f1
    · rw [if_neg f1]; simp
  show accessEntry a ∈
    (if (updateEnvLines a r L).2.2 then
      (if (updateEnvLines a r L).2.1 then (updateEnvLines a r L).1
       else (updateEnvLines a r L).1 ++ [accessEntry a])
     else (if (updateEnvLines a r L).2.1 then (updateEnvLines a r L).1
       else (updateEnvLines a r L).1 ++ [accessEntry a]) ++ [refreshEntry r])
  by_cases f2 : (updateEnvLines a r L).2.2 = true
  · rw [if_pos f2]; exact hbase
  · rw [if_neg f2]; exact List.mem_append_left _ hbase

/-- The new refresh entry always appears among the written lines. -/
theorem refreshEntry_mem_finalLines (a r : List Char) (L : List (List Char)) :
    refreshEntry r ∈ finalLines a r L := by
  show refreshEntry r ∈
    (if (updateEnvLines a r L).2.2 then
      (if (updateEnvLines a r L).2.1 then (updateEnvLines a r L).1
       else (updateEnvLines a r L).1 ++ [accessEntry a])
     else (if (updateEnvLines a r L).2.1 then (updateEnvLines a r L).1
       else (updateEnvLines a r L).1 ++ [accessEntry a]) ++ [refreshEntry r])
  by_cases f2 : (updateEnvLines a r L).2.2 = true
  · rw [if_pos f2]
    have hmem := refreshEntry_mem_of_flag a r L f2
    by_cases f1 : (updateEnvLines a r L).2.1 = true
    · rw [if_pos f1]; exact hmem
    · rw [if_neg f1]; exact List.mem_append_left _ hmem
  · rw [if_neg f2]; simp

/-- Every written line is one of the two new entries or an untouched
non-token input line. -/
theorem mem_finalLines (a r : List Char) (L : List (List Char)) :
    ∀ l ∈ finalLines a r L,
      l = accessEntry a ∨ l = refreshEntry r ∨ (l ∈ L ∧ isTokenLine l = false) := by
  intro l hl
  have hbase : l ∈ (updateEnvLines a r L).1 ∨ l = accessEntry a ∨ l = refreshEntry r := by
    by_cases f1 : (updateEnvLines a r L).2.1 = true <;>
      by_cases f2 : (updateEnvLines a r L).2.2 = true <;>
        simp only [finalLines, f1, f2, if_true, if_false, Bool.false_eq_true,
          List.mem_append, List.mem_singleton] at hl <;> tauto
  rcases hbase with h | h | h
  · exact mem_updateEnvLines a r L l h
  · exact Or.inl h
  · exact Or.inr (Or.inl h)

/-- The written lines keep exactly the non-token lines of the input,
in order and byte-identical. -/
theorem filter_finalLines (a r : List Char) (L : List (List Char)) :
    (finalLines a r L).filter (fun l => !isTokenLine l) =
      L.filter (fun l => !isTokenLine l) := by
  have hacc : (fun l => !isTokenLine l) (accessEntry a) = false := by
    simp [tokenLine_accessEntry]
  have href : (fun l => !isTokenLine l) (refreshEntry r) = false := by
    simp [tokenLine_refreshEntry]
  by_cases f1 : (updateEnvLines a r L).2.1 = true <;>
    by_cases f2 : (updateEnvLines a r L).2.2 = true <;>
      simp only [finalLines, f1, f2, if_true, if_false, Bool.false_eq_true,
        List.filter_append] <;>
      simp [List.filter, hacc, href, filter_updateEnvLines a r L, tokenLine_accessEntry,
        tokenLine_refreshEntry]

/-- All written lines are newline-terminated with no interior newline,
provided the input lines are and the two tokens contain no newline. -/
theorem good_finalLines (a r : List Char) (L : List (List Char))
    (hL : ∀ l ∈ L, ∃ m, '\n' ∉ m ∧ l = m ++ ['\n'])
    (ha : '\n' ∉ a) (hr : '\n' ∉ r) :
    ∀ l ∈ finalLines a r L, ∃ m, '\n' ∉ m ∧ l = m ++ ['\n'] := by
  have hka : '\n' ∉ ACCESS_KEY := by decide
  have hkr : '\n' ∉ REFRESH_KEY := by decide
  have hacc : ∃ m, '\n' ∉ m ∧ accessEntry a = m ++ ['\n'] := by
    refine ⟨ACCESS_KEY ++ a, ?_, by simp [accessEntry]⟩
    intro h
    rcases List.mem_append.mp h with h | h
    · exact hka h
    · exact ha h
  have href : ∃ m, '\n' ∉ m ∧ refreshEntry r = m ++ ['\n'] := by
    refine ⟨REFRESH_KEY ++ r, ?_, by simp [refreshEntry]⟩
    intro h
    rcases List.mem_append.mp h with h | h
    · exact hkr h
    · exact hr h
  intro l hl
  rcases mem_finalLines a r L l hl with rfl | rfl | ⟨hmem, _⟩
  · exact hacc
  · exact href
  · exact hL l hmem

/-- C10 counterexample: on a `.env` content whose last line has no
trailing newline, the appended access entry is concatenated onto that
line, so the resulting file contains no line equal to the new access
entry and the original non-token line is not preserved as a line. -/
theorem c10_unterminated_last_line :
    update_env_file "a".data "r".data "FOO=bar".data =
      ("FOO=barTWITCH_ACCESS_TOKEN=a\nTWITCH_REFRESH_TOKEN=r\n").data ∧
    accessEntry "a".data ∉ readlines (update_env_file "a".data "r".data "FOO=bar".data) ∧
    "FOO=bar".data ∈ readlines "FOO=bar".data ∧
    "FOO=bar".data ∉ readlines (update_env_file "a".data "r".data "FOO=bar".data) := by decide

/-- C10 (amended): provided every line of the `.env` content is
newline-terminated and the two tokens contain no newline, a successful
`update_env_file` write rewrites exactly the token lines, leaves every
other line byte-identical and in order, appends whichever of the two
entries was absent, and the resulting file contains both entries of the
new pair as lines. -/
theorem c10_update_env_file_frame (a r content : List Char)
    (hterm : ∀ l ∈ readlines content, '\n' ∉ l.dropLast ∧ l.getLast? = some '\n')
    (ha : '\n' ∉ a) (hr : '\n' ∉ r) :
    readlines (update_env_file a r content) = finalLines a r (readlines content) ∧
    accessEntry a ∈ readlines (update_env_file a r content) ∧
    refreshEntry r ∈ readlines (update_env_file a r content) ∧
    (readlines (update_env_file a r content)).filter (fun l => !isTokenLine l) =
      (readlines content).filter (fun l => !isTokenLine l) ∧
    (∀ l ∈ readlines (update_env_file a r content),
      l = accessEntry a ∨ l = refreshEntry r ∨
        (l ∈ readlines content ∧ isTokenLine l = false)) := by
  have hgood : ∀ l ∈ readlines content, ∃ m, '\n' ∉ m ∧ l = m ++ ['\n'] := by
    intro l hl
    obtain ⟨h1, h2⟩ := hterm l hl
    exact ⟨l.dropLast, h1, (List.dropLast_append_getLast? '\n' (by simp [h2])).symm⟩
  have hgoodF := good_finalLines a r (readlines content) hgood ha hr
  have hL : readlines (update_env_file a r content) = finalLines a r (readlines content) := by
    rw [update_env_file_eq_finalLines, readlines_flatten _ hgoodF]
  refine ⟨hL, ?_, ?_, ?_, ?_⟩
  · rw [hL]; exact accessEntry_mem_finalLines a r _
  · rw [hL]; exact refreshEntry_mem_finalLines a r _
  · rw [hL]; exact filter_finalLines a r _
  · rw [hL]; exact mem_finalLines a r _

/-- C10 witness: the amended theorem applied to a two-line `.env` file
(one foreign line, one access-token line, both newline-terminated). -/
theorem c10_update_env_file_frame_witness :
    (∀ l ∈ readlines ("X=1\nTWITCH_ACCESS_TOKEN=old\n").data,
        '\n' ∉ l.dropLast ∧ l.getLast? = some '\n') ∧
    '\n' ∉ ("a").data ∧
    '\n' ∉ ("r").data ∧
    readlines (update_env_file ("a").data ("r").data ("X=1\nTWITCH_ACCESS_TOKEN=old\n").data) =
      finalLines ("a").data ("r").data (readlines ("X=1\nTWITCH_ACCESS_TOKEN=old\n").data) ∧
    accessEntry ("a").data ∈
      readlines (update_env_file ("a").data ("r").data ("X=1\nTWITCH_ACCESS_TOKEN=old\n").data) ∧
    refreshEntry ("r").data ∈
      readlines (update_env_file ("a").data ("r").data ("X=1\nTWITCH_ACCESS_TOKEN=old\n").data) ∧
    (readlines (update_env_file ("a").data ("r").data
        ("X=1\nTWITCH_ACCESS_TOKEN=old\n").data)).filter (fun l => !isTokenLine l) =
      (readlines ("X=1\nTWITCH_ACCESS_TOKEN=old\n").data).filter (fun l => !isTokenLine l) :=
  ⟨by decide, by decide, by decide,
   (c10_update_env_file_frame ("a").data ("r").data ("X=1\nTWITCH_ACCESS_TOKEN=old\n").data
      (by decide) (by decide) (by decide)).1,
   (c10_update_env_file_frame ("a").data ("r").data ("X=1\nTWITCH_ACCESS_TOKEN=old\n").data
      (by decide) (by decide) (by decide)).2.1,
   (c10_update_env_file_frame ("a").data ("r").data ("X=1\nTWITCH_ACCESS_TOKEN=old\n").data
      (by decide) (by decide) (by decide)).2.2.1,
   (c10_update_env_file_frame ("a").data ("r").data ("X=1\nTWITCH_ACCESS_TOKEN=old\n").data
      (by decide) (by decide) (by decide)).2.2.2.1⟩
